import Mathlib

/-!
# Verification of the FreshAI recipe-pipeline script

Shallow embedding of `src/attached_assets/fresh_1754513375078.py`.

The script is sequential glue over external HTTP services.  Each external
exchange is modelled by passing the service's response (or a response
function) into the embedded Python function as an explicit parameter;
Python exceptions are modelled by `Except PyError`.
-/

namespace FreshAI

/-- Runtime errors the embedded code can raise: `requests`' HTTPError from
`raise_for_status`, Python `NameError` for an undefined name, Python
`TypeError` for an ill-typed operation. -/
inductive PyError where
  | httpError (status : Nat)
  | nameError (missing : String)
  | typeError (msg : String)
deriving DecidableEq, Repr

/-- `requests.Response.raise_for_status()`: raises HTTPError exactly when the
status code is in 400..599, otherwise does nothing. -/
def raise_for_status (status : Nat) : Except PyError Unit :=
  if 400 ≤ status ∧ status < 600 then .error (.httpError status) else .ok ()

/-- Python `str(x)` applied to an optional string: `str(None) = "None"`.
Used for f-string interpolation such as `f"Bearer {access_token}"`. -/
def pyStr : Option String → String
  | none => "None"
  | some s => s

/-- The token endpoint's HTTP response: status code, and the value of the
`access_token` key of the JSON body when present (`.get` yields `None`
when it is absent). -/
structure TokenResponse where
  status : Nat
  access_token : Option String
deriving DecidableEq, Repr

/-- Lines 20-35, `get_walmart_access_token`: POSTs the client credentials,
calls `response.raise_for_status()`, then returns
`response.json().get("access_token")` (which is `None` when the key is
absent). The response is the explicit parameter. -/
def get_walmart_access_token (resp : TokenResponse) : Except PyError (Option String) := do
  let _ ← raise_for_status resp.status
  return resp.access_token

/-- One entry of the catalog response's `items` list; each field is read
with `.get`, hence optional. -/
structure CatalogItem where
  name : Option String
  itemId : Option String
  productUrl : Option String
deriving DecidableEq, Repr

/-- The catalog endpoint's HTTP response: status code, and the `items` key
of the JSON body when present (`.get("items", [])` defaults it to `[]`). -/
structure CatalogResponse where
  status : Nat
  items : Option (List CatalogItem)
deriving DecidableEq, Repr

/-- The request `search_walmart_products` sends to the catalog endpoint:
the three headers of lines 47-51 plus the `query` parameter of line 52. -/
structure CatalogRequest where
  authorization : String
  correlation_id : String
  svc_name : String
  query : String
deriving DecidableEq, Repr

/-- Lines 47-52: the headers and query parameter, with the `Authorization`
header built by the f-string `f"Bearer {access_token}"`. -/
def catalog_request (access_token : Option String) (query : String) : CatalogRequest :=
  { authorization := "Bearer " ++ pyStr access_token
    correlation_id := "1234567890"
    svc_name := "Walmart Marketplace"
    query := query }

/-- A product dictionary as built on line 57. -/
structure Product where
  name : Option String
  itemId : Option String
  url : Option String
deriving DecidableEq, Repr

/-- Lines 37-59, `search_walmart_products`: fetches a fresh access token via
`get_walmart_access_token` (any exception propagates), sends the catalog
request, calls `raise_for_status`, reads `items` (default `[]`) and maps
`items[:1]` to product dictionaries. The catalog service is modelled as a
function from the request to its response. -/
def search_walmart_products (tokenResp : TokenResponse)
    (catalog : CatalogRequest → CatalogResponse) (query : String) :
    Except PyError (List Product) := do
  let access_token ← get_walmart_access_token tokenResp
  let response := catalog (catalog_request access_token query)
  let _ ← raise_for_status response.status
  let items := response.items.getD []
  return (items.take 1).map fun item =>
    { name := item.name, itemId := item.itemId, url := item.productUrl }

/-- The dictionary returned by `add_to_walmart_cart` (line 71). -/
structure CartResult where
  item_id : String
  status : String
  cart_url : String
deriving DecidableEq, Repr

/-- Lines 61-71, `add_to_walmart_cart`: pure function returning the fixed
acknowledgment dictionary. -/
def add_to_walmart_cart (item_id : String) : CartResult :=
  { item_id := item_id
    status := "Simulated addition to cart"
    cart_url := "https://www.walmart.com/cart" }

end FreshAI

namespace FreshAI

/-- Observable steps of the indexing/generation pipeline, used to record
which stages an invocation actually reaches. -/
inductive Effect where
  | fetch (url : String)
  | split
  | embed
  | indexChunks
  | retrieve
  | renderTemplate
  | modelCall
deriving DecidableEq, Repr

/-- The names bound at module level when line 91 executes: the imports of
lines 1-13 and the assignments/defs of lines 15-98. Neither the module
globals, nor builtins, nor the function's locals bind `Recursive` or
`CharacterTextSplitter` - only `RecursiveCharacterTextSplitter` is
imported (line 3). -/
def moduleGlobals : List String :=
  ["ChatOpenAI", "WebBaseLoader", "RecursiveCharacterTextSplitter", "Chroma",
   "PromptTemplate", "RunnablePassthrough", "StrOutputParser", "Tool",
   "os", "json", "requests", "load_dotenv", "List", "Dict",
   "client", "WALMART_CLIENT_ID", "WALMART_CLIENT_SECRET",
   "get_walmart_access_token", "search_walmart_products", "add_to_walmart_cart",
   "walmart_tool", "initialize_vector_store", "generate_recipes"]

/-- Evaluating a bare name: `NameError` when it is not bound. -/
def lookupName (n : String) : Except PyError Unit :=
  if n ∈ moduleGlobals then .ok () else .error (.nameError n)

/-- The hardcoded URL list of lines 85-88. -/
def recipe_urls : List String :=
  ["https://www.allrecipes.com/recipes/", "https://www.bbcgoodfood.com/recipes"]

/-- The `chunk_size` keyword argument of the (never evaluated) splitter call
on line 91. -/
def chunk_size : Nat := 1000

/-- The `chunk_overlap` keyword argument of the (never evaluated) splitter
call on line 91. -/
def chunk_overlap : Nat := 200

/-- Lines 80-96, `initialize_vector_store`. Lines 89-90 fetch the two URLs
(the page loader is the `pages` parameter). Line 91 reads
`text_splitter = Recursive---------------------CharacterTextSplitter(chunk_size=1000, chunk_overlap=200)`,
which parses as the binary subtraction
`Recursive - (- ... -(CharacterTextSplitter(...)))`; Python evaluates the
left operand first, so the undefined name `Recursive` raises `NameError`
before any splitting, embedding or indexing. The returned trace records
the effects performed before the exception. -/
def initialize_vector_store (pages : String → String) :
    List Effect × Except PyError Unit :=
  let fetches := recipe_urls.map Effect.fetch
  let _documents := recipe_urls.map pages
  match lookupName "Recursive" with
  | .error e => (fetches, .error e)
  | .ok _ =>
    -- unreachable: the right operand would be evaluated next, and
    -- CharacterTextSplitter is also unbound
    match lookupName "CharacterTextSplitter" with
    | .error e => (fetches, .error e)
    | .ok _ =>
      -- unreachable: even then, the chain of unary minus operators would be
      -- applied to the splitter object and raise TypeError before any split
      (fetches, .error (.typeError "bad operand type for unary -"))

/-- The `k` of `search_kwargs` on line 110 (dead code: line 109 always
raises before it runs). -/
def retriever_k : Nat := 3

/-- Template segment of lines 118-119, up to the num_people placeholder. -/
def tmpl1 : String :=
  "\nYou are a professional chef. Using the provided web recipe context, create 3–5 unique recipes for "

/-- Template segment of line 119 between the num_people and ingredients
placeholders. -/
def tmpl2 : String := " people using these ingredients: "

/-- Template segment of lines 119-120 between the ingredients and dietary
placeholders. -/
def tmpl3 : String := ".\nEnsure they adhere to these dietary restrictions: "

/-- Template segment of lines 120-130 between the dietary and context
placeholders. -/
def tmpl4 : String :=
  ".\nFor each recipe, include a list of any additional ingredients not provided by the user.\nReturn your answer as a JSON array where each item is an object with these keys:\n\"title\" (string),\n\"ingredients\" (list of strings),\n\"instructions\" (list of step-by-step instructions),\n\"missing_ingredients\" (list of strings, additional ingredients not in user input).\nOnly output valid JSON. Do not include any extra text.\n\nWeb recipe context:\n"

/-- Template segment after the context placeholder (line 131). -/
def tmpl5 : String := "\n"

/-- The prompt template of lines 116-132 as rendered by
`PromptTemplate.format`: each of the four placeholders replaced by the
corresponding input value. -/
def render_prompt (context num_people ingredients dietary : String) : String :=
  tmpl1 ++ num_people ++ tmpl2 ++ ingredients ++ tmpl3 ++ dietary ++ tmpl4 ++
    context ++ tmpl5

/-- Lines 98-158, `generate_recipes`: builds the vector store (line 109 -
which always raises), and - in dead code - would configure a retriever
with k = `retriever_k`, build and invoke the RAG chain on the input, and
parse the model response. The page loader, retriever and language model
are explicit function parameters. The source file ends mid-statement on
line 158 inside the `try` block, so no parse/cart-fill step exists. -/
def generate_recipes (pages : String → String) (retrieve : String → List String)
    (model : String → String) (num_people : Int) (ingredients dietary : String) :
    List Effect × Except PyError String :=
  match initialize_vector_store pages with
  | (trace, .error e) => (trace, .error e)
  | (trace, .ok _) =>
    -- dead code from here on: line 109 always raises NameError
    let _user_ingredients := (ingredients.splitOn ",").map fun s => s.trim.toLower
    let query := "Recipes using " ++ ingredients ++ " for " ++ dietary ++ " diet"
    let context := String.intercalate "\n\n" (retrieve query)
    let prompt := render_prompt context (toString num_people) ingredients dietary
    let response := model prompt
    (trace ++ [.retrieve, .renderTemplate, .modelCall], .ok response)

/-- Helper: `initialize_vector_store` always fetches the two URLs and then
raises `NameError` for `Recursive`. -/
theorem initialize_vector_store_eq (pages : String → String) :
    initialize_vector_store pages =
      ([.fetch "https://www.allrecipes.com/recipes/",
        .fetch "https://www.bbcgoodfood.com/recipes"],
       .error (.nameError "Recursive")) := rfl

/-- Helper: `generate_recipes` propagates that `NameError` with the same
trace. -/
theorem generate_recipes_eq (pages : String → String) (retrieve : String → List String)
    (model : String → String) (np : Int) (ingredients dietary : String) :
    generate_recipes pages retrieve model np ingredients dietary =
      ([.fetch "https://www.allrecipes.com/recipes/",
        .fetch "https://www.bbcgoodfood.com/recipes"],
       .error (.nameError "Recursive")) := rfl

/-- Helper: string append is associative. -/
theorem str_append_assoc (a b c : String) : a ++ b ++ c = a ++ (b ++ c) :=
  String.ext (by simp [String.data_append, List.append_assoc])

/-- Claim C4: every invocation of `initialize_vector_store` raises
`NameError` for the undefined name `Recursive` before any documents are
split, embedded or indexed, and consequently every invocation of
`generate_recipes` fails before retrieval, prompt rendering or any model
call. -/
theorem pipeline_fails_at_undefined_name (pages : String → String)
    (retrieve : String → List String) (model : String → String)
    (np : Int) (ingredients dietary : String) :
    (initialize_vector_store pages).2 = .error (.nameError "Recursive") ∧
    Effect.split ∉ (initialize_vector_store pages).1 ∧
    Effect.embed ∉ (initialize_vector_store pages).1 ∧
    Effect.indexChunks ∉ (initialize_vector_store pages).1 ∧
    (generate_recipes pages retrieve model np ingredients dietary).2 =
      .error (.nameError "Recursive") ∧
    Effect.retrieve ∉ (generate_recipes pages retrieve model np ingredients dietary).1 ∧
    Effect.renderTemplate ∉ (generate_recipes pages retrieve model np ingredients dietary).1 ∧
    Effect.modelCall ∉ (generate_recipes pages retrieve model np ingredients dietary).1 := by
  rw [initialize_vector_store_eq, generate_recipes_eq]
  refine ⟨rfl, by decide, by decide, by decide, rfl, by decide, by decide, by decide⟩

/-- Claim C5 (code bug): the indexer never splits anything - line 91 raises
`NameError` for `Recursive` first - although the dead splitter call does
carry chunk_size 1000 and chunk_overlap 200. -/
theorem initialize_vector_store_never_splits :
    (initialize_vector_store fun _ => "recipe page text").2 =
      .error (.nameError "Recursive") ∧
    Effect.split ∉ (initialize_vector_store fun _ => "recipe page text").1 ∧
    chunk_size = 1000 ∧ chunk_overlap = 200 :=
  ⟨rfl, by decide, rfl, rfl⟩

/-- Claim C6: `search_walmart_products` obtains its token from
`get_walmart_access_token` on the call itself (the embedding takes no
cached token, only the endpoint responses), propagates any token-retrieval
failure unchanged, and fails with the catalog's HTTP error when the
catalog call errors - returning no partial result in either case. -/
theorem search_walmart_products_failure_propagation (tokenResp : TokenResponse)
    (catalog : CatalogRequest → CatalogResponse) (q : String) :
    (∀ e, get_walmart_access_token tokenResp = .error e →
      search_walmart_products tokenResp catalog q = .error e) ∧
    (∀ tok, get_walmart_access_token tokenResp = .ok tok →
      (400 ≤ (catalog (catalog_request tok q)).status ∧
        (catalog (catalog_request tok q)).status < 600) →
      search_walmart_products tokenResp catalog q =
        .error (.httpError (catalog (catalog_request tok q)).status)) := by
  constructor
  · intro e he
    simp [search_walmart_products, he, bind, Except.bind]
  · intro tok htok hcat
    simp [search_walmart_products, htok, raise_for_status, hcat,
      bind, Except.bind, Except.map]

/-- Claim C6 witness: a 500 token response makes the search fail with that
error; a good token but a 404 catalog response makes it fail with 404. -/
theorem search_walmart_products_failure_propagation_witness :
    search_walmart_products ⟨500, none⟩ (fun _ => ⟨200, some []⟩) "milk" =
      .error (.httpError 500) ∧
    search_walmart_products ⟨200, some "T"⟩ (fun _ => ⟨404, none⟩) "milk" =
      .error (.httpError 404) :=
  ⟨(search_walmart_products_failure_propagation ⟨500, none⟩
      (fun _ => ⟨200, some []⟩) "milk").1 (.httpError 500) rfl,
   (search_walmart_products_failure_propagation ⟨200, some "T"⟩
      (fun _ => ⟨404, none⟩) "milk").2 (some "T") rfl (by decide)⟩

/-- Claim C7 (code bug): `generate_recipes` raises `NameError` before the
retriever is ever built or used, so no top-k retrieval happens - although
the dead code of line 110 does set k to 3. -/
theorem generate_recipes_never_retrieves :
    (generate_recipes (fun _ => "page") (fun _ => ["ctx"]) (fun p => p)
        4 "tomatoes, pasta" "vegetarian").2 = .error (.nameError "Recursive") ∧
    Effect.retrieve ∉ (generate_recipes (fun _ => "page") (fun _ => ["ctx"]) (fun p => p)
        4 "tomatoes, pasta" "vegetarian").1 ∧
    retriever_k = 3 :=
  ⟨rfl, by decide, rfl⟩

/-- Claim C8: the rendered prompt contains the ingredient string and the
dietary string passed in, as literal substrings, whatever the retrieved
context and people count are. -/
theorem render_prompt_contains_inputs (context num_people ingredients dietary : String) :
    (∃ a b, render_prompt context num_people ingredients dietary =
      a ++ ingredients ++ b) ∧
    (∃ a b, render_prompt context num_people ingredients dietary =
      a ++ dietary ++ b) := by
  constructor
  · exact ⟨tmpl1 ++ num_people ++ tmpl2,
      tmpl3 ++ dietary ++ tmpl4 ++ context ++ tmpl5,
      by simp [render_prompt, str_append_assoc]⟩
  · exact ⟨tmpl1 ++ num_people ++ tmpl2 ++ ingredients ++ tmpl3,
      tmpl4 ++ context ++ tmpl5,
      by simp [render_prompt, str_append_assoc]⟩

/-- Claim C9 (code bug): the end-to-end scenario with num_people = 4,
ingredients "tomatoes, pasta", dietary "vegetarian" produces no recipes at
all: the call raises `NameError` inside `initialize_vector_store`. -/
theorem generate_recipes_end_to_end_fails :
    (generate_recipes (fun _ => "page") (fun _ => [])
        (fun _ => "[]") 4 "tomatoes, pasta" "vegetarian").2 =
      .error (.nameError "Recursive") := rfl

/-- Claim C10: a success token response whose body lacks `access_token`
makes `get_walmart_access_token` return `None` rather than raise, and the
subsequent search proceeds with the header `Authorization: Bearer None`:
a catalog stub that only answers 200 to that exact header is reached and
the search succeeds. -/
theorem missing_token_field_gives_bearer_none (q : String) (item : CatalogItem) :
    get_walmart_access_token ⟨200, none⟩ = .ok none ∧
    (catalog_request none q).authorization = "Bearer None" ∧
    search_walmart_products ⟨200, none⟩
      (fun r => if r.authorization = "Bearer None" then ⟨200, some [item]⟩
                else ⟨500, none⟩) q =
      .ok [{ name := item.name, itemId := item.itemId, url := item.productUrl }] := by
  refine ⟨rfl, rfl, ?_⟩
  simp [search_walmart_products, get_walmart_access_token, raise_for_status,
    catalog_request, pyStr, bind, Except.bind, pure, Except.pure]

/-- C1: `add_to_walmart_cart` returns exactly the fixed dictionary; it is a
pure function of its argument (so identical output on every call) with no
failure path - its result type is `CartResult`, not `Except`. -/
theorem add_to_walmart_cart_spec (x : String) :
    add_to_walmart_cart x =
      { item_id := x
        status := "Simulated addition to cart"
        cart_url := "https://www.walmart.com/cart" } := rfl

/-- C3: on a success status (not 4xx/5xx) with an `access_token` field
holding `t`, `get_walmart_access_token` returns exactly `t`; on a 4xx/5xx
status it raises HTTPError instead of returning a token. -/
theorem get_walmart_access_token_spec (status : Nat) (t : String) (body : Option String) :
    (¬ (400 ≤ status ∧ status < 600) →
      get_walmart_access_token ⟨status, some t⟩ = .ok (some t)) ∧
    ((400 ≤ status ∧ status < 600) →
      get_walmart_access_token ⟨status, body⟩ = .error (.httpError status)) := by
  constructor
  · intro h
    simp [get_walmart_access_token, raise_for_status, h]
  · intro h
    simp [get_walmart_access_token, raise_for_status, h]

/-- C3 witness: a stubbed 200 response `{"access_token": "T"}` yields `"T"`;
a stubbed 404 response raises. -/
theorem get_walmart_access_token_spec_witness :
    get_walmart_access_token ⟨200, some "T"⟩ = .ok (some "T") ∧
    get_walmart_access_token ⟨404, some "T"⟩ = .error (.httpError 404) :=
  ⟨(get_walmart_access_token_spec 200 "T" (some "T")).1 (by decide),
   (get_walmart_access_token_spec 404 "T" (some "T")).2 (by decide)⟩

/-- C2: when the token exchange and the catalog call both succeed and the
catalog response's `items` list is non-empty, `search_walmart_products`
returns exactly one product, built from the first item's `name`, `itemId`
and `productUrl` - regardless of the length of `items`. -/
theorem search_walmart_products_first_item (tokenResp : TokenResponse)
    (catalog : CatalogRequest → CatalogResponse) (q : String)
    (x : CatalogItem) (xs : List CatalogItem)
    (htok : ¬ (400 ≤ tokenResp.status ∧ tokenResp.status < 600))
    (hcat : ¬ (400 ≤ (catalog (catalog_request tokenResp.access_token q)).status ∧
               (catalog (catalog_request tokenResp.access_token q)).status < 600))
    (hitems : (catalog (catalog_request tokenResp.access_token q)).items = some (x :: xs)) :
    search_walmart_products tokenResp catalog q =
      .ok [{ name := x.name, itemId := x.itemId, url := x.productUrl }] := by
  simp [search_walmart_products, get_walmart_access_token, raise_for_status,
    bind, Except.bind, Except.map, pure, Except.pure, htok, hcat, hitems]

/-- C2 witness: a catalog stub returning two items yields exactly the first
item's fields. -/
theorem search_walmart_products_first_item_witness :
    search_walmart_products ⟨200, some "T"⟩
      (fun _ => ⟨200, some [⟨some "Tomatoes", some "42", some "https://w/42"⟩,
                            ⟨some "Pasta", some "43", some "https://w/43"⟩]⟩)
      "tomatoes" =
      .ok [{ name := some "Tomatoes", itemId := some "42", url := some "https://w/42" }] :=
  search_walmart_products_first_item ⟨200, some "T"⟩
    (fun _ => ⟨200, some [⟨some "Tomatoes", some "42", some "https://w/42"⟩,
                          ⟨some "Pasta", some "43", some "https://w/43"⟩]⟩)
    "tomatoes" ⟨some "Tomatoes", some "42", some "https://w/42"⟩
    [⟨some "Pasta", some "43", some "https://w/43"⟩]
    (by decide) (by decide) rfl

end FreshAI
